import Mathlib

/-!
Verification of the "talk with your data" repository against its
natural-language specification.

The repository ships two artifacts: the SQLite seed script (tables
`orders` and `summary` with six seeded rows each) and the React
presentation layer `src/frontend/src/App.jsx`.  The backend pipeline
(SQL Validator, SQL Corrector, Insight Generator, Anomaly Detector)
described by the specification is not part of the source tree, so those
components are modelled here directly from the specification text; the
frontend and the seed data are embedded from the source files.

All machine arithmetic is embedded over `ℚ` (the values involved are
decimal literals, which SQLite and JavaScript represent exactly enough
for the quantities at stake; the spec's statistics are defined over
exact rationals here).
-/

namespace TalkData

/-! ## Frontend value model (src/frontend/src/App.jsx)

JavaScript cell values flowing through the React app: numbers, strings
and null; an absent property (`undefined`) is modelled by an `Option`
wrapper at the lookup site. -/

inductive JsValue where
  | num (q : ℚ)
  | str (s : String)
  | null
deriving DecidableEq, Repr

/-- A result row as consumed by the frontend: a mapping column → value,
embedded as an association list. -/
def Row : Type := List (String × JsValue)

instance : DecidableEq Row := by
  unfold Row
  infer_instance

instance : Repr Row := by
  unfold Row
  infer_instance

/-- `r[c]` in JavaScript: `none` models `undefined` (missing property). -/
def getCell (r : Row) (c : String) : Option JsValue :=
  (r.find? (fun p => p.1 = c)).map Prod.snd

def quoteChar : Char := Char.ofNat 39
def newlineChar : Char := Char.ofNat 10

/-- Uppercasing via the character map (the embedding avoids the core
`String` loops, which do not reduce definitionally). -/
def upperStr (s : String) : String :=
  ⟨s.data.map Char.toUpper⟩

def lowerStr (s : String) : String :=
  ⟨s.data.map Char.toLower⟩

def trimStr (s : String) : String :=
  ⟨((s.data.dropWhile Char.isWhitespace).reverse.dropWhile Char.isWhitespace).reverse⟩


def digitsVal (l : List Char) : ℚ :=
  l.foldl (fun acc c => acc * 10 + ((c.toNat - 48 : ℕ) : ℚ)) 0

def digitsOnly (l : List Char) : Bool := l.all Char.isDigit

/-- Decimal forms accepted by JavaScript `Number(...)` on plain decimal
strings: digits with an optional single dot, at least one digit overall.
(Exponents, hex and infinities do not occur in this data set.) -/
def parseUnsigned (l : List Char) : Option ℚ :=
  let intPart := l.takeWhile (fun c => c != '.')
  let rest := l.dropWhile (fun c => c != '.')
  match rest with
  | [] =>
      if digitsOnly intPart && !intPart.isEmpty then some (digitsVal intPart) else none
  | _ :: fracPart =>
      if digitsOnly intPart && digitsOnly fracPart
          && !(intPart.isEmpty && fracPart.isEmpty) then
        some (digitsVal intPart + digitsVal fracPart / (10 : ℚ) ^ fracPart.length)
      else none

def parseSigned (l : List Char) : Option ℚ :=
  match l with
  | [] => none
  | c :: rest =>
      if c = '-' then (parseUnsigned rest).map Neg.neg
      else if c = '+' then parseUnsigned rest
      else parseUnsigned (c :: rest)

/-- JavaScript `Number(s)` on a string: whitespace-only coerces to `0`,
otherwise an optionally signed decimal; `none` models `NaN`. -/
def parseNumber (s : String) : Option ℚ :=
  let t := trimStr s
  if t = "" then some 0 else parseSigned t.data

/-- JavaScript `Number(v)` for a looked-up cell: `undefined → NaN`,
`null → 0`, numbers unchanged, strings parsed.  `none` models `NaN`. -/
def jsToNumber (v : Option JsValue) : Option ℚ :=
  match v with
  | none => none
  | some (.num q) => some q
  | some .null => some 0
  | some (.str s) => parseNumber s

/-! ## Chart column selection (App.jsx, `timeColumn` / `numericColumn` /
`chartData` memos) -/

/-- App.jsx `timeColumn`: the first column whose lowercase name is
`month`, else the first whose lowercase name is `order_date`, else none. -/
def timeColumn (cols : List String) : Option String :=
  match cols.find? (fun c => lowerStr c = "month") with
  | some c => some c
  | none => cols.find? (fun c => lowerStr c = "order_date")

/-- App.jsx `numericColumn` priority chain: the five case-sensitive
`cols.includes` checks, in source order. -/
def priorityNumeric (cols : List String) : Option String :=
  if cols.contains "tax" then some "tax"
  else if cols.contains "discount" then some "discount"
  else if cols.contains "quantity" then some "quantity"
  else if cols.contains "revenue" then some "revenue"
  else if cols.contains "amount" then some "amount"
  else none

/-- App.jsx `numericColumn`: null when there are no columns or no rows;
otherwise the priority chain, and failing that the first column other
than the time column whose first-row value coerces to a number. -/
def numericColumn (cols : List String) (rows : List Row) : Option String :=
  match rows with
  | [] => none
  | r0 :: _ =>
      if cols.isEmpty then none
      else
        match priorityNumeric cols with
        | some c => some c
        | none =>
            cols.find? (fun c =>
              (some c != timeColumn cols) && (jsToNumber (getCell r0 c)).isSome)

/-- App.jsx `chartData`: the guard `!timeColumn || !numericColumn`
returns null on a JavaScript-falsy column, i.e. on null but also on a
column literally named "" — both cases yield no chart; otherwise labels
and data points as mapped in source. -/
def chartData (cols : List String) (rows : List Row) :
    Option (List (Option JsValue) × List (Option ℚ)) :=
  match timeColumn cols, numericColumn cols rows with
  | some t, some n =>
      if t = "" ∨ n = "" then none
      else
        some (rows.map (fun r => getCell r t),
              rows.map (fun r => jsToNumber (getCell r n)))
  | _, _ => none

/-- Chart-rendering condition written from the specification claim's own
words (for comparison with `chartData`): the column list contains,
case-insensitively, `month` or else `order_date`; and the selected
numeric column — by the fixed case-sensitive priority tax, discount,
quantity, revenue, amount, or else the first column distinct from the
time column whose first-row value parses as a number — exists and has a
non-empty name (a column literally named "" is selected by the loop but
is then falsy in the chart guard). -/
def specChartCondition (cols : List String) (rows : List Row) : Bool :=
  (cols.any (fun c => lowerStr c = "month" || lowerStr c = "order_date"))
  && (cols.contains "tax" || cols.contains "discount" || cols.contains "quantity"
      || cols.contains "revenue" || cols.contains "amount"
      || (match rows with
          | [] => false
          | r0 :: _ =>
              match cols.find? (fun c =>
                  (some c != timeColumn cols) && (jsToNumber (getCell r0 c)).isSome) with
              | some c => c != ""
              | none => false))

/-! ## Frontend state model (App.jsx, `ask` and the auto-speak block) -/

/-- The `data` object of the outbound contract as consumed by App.jsx. -/
structure ChatData where
  columns : List String
  rows : List Row
deriving DecidableEq, Repr

/-- The outbound `ChatResponse` contract as consumed by App.jsx:
`message`, `data`, `insight`, `anomaly`, each possibly absent
(`none` models a missing JSON field / `undefined`). -/
structure ChatResponseM where
  message : Option String
  data : Option ChatData
  insight : Option String
  anomaly : Option String
deriving DecidableEq, Repr

/-- The React state touched by `ask`: message, insight, anomaly, cols,
rows. -/
structure AppState where
  message : String
  insight : String
  anomaly : String
  cols : List String
  rows : List Row
deriving DecidableEq, Repr

/-- JavaScript `v || d` for an optional string `v`: absent and empty
strings are both falsy and yield the default. -/
def jsOrStr (v : Option String) (d : String) : String :=
  match v with
  | none => d
  | some s => if s = "" then d else s

/-- JavaScript truthiness of an optional string: present and non-empty. -/
def jsTruthy (v : Option String) : Bool :=
  match v with
  | none => false
  | some s => s != ""

/-- The success branch of `ask` (App.jsx lines 45-51): the five state
setters applied to a received response. -/
def applyResponse (resp : ChatResponseM) : AppState :=
  { cols := match resp.data with | some d => d.columns | none => []
    rows := match resp.data with | some d => d.rows | none => []
    message := jsOrStr resp.message ""
    insight := jsOrStr resp.insight ""
    anomaly := jsOrStr resp.anomaly "" }

/-- App.jsx `speak`: returns without speaking on a falsy text. -/
def speakModel (text : String) : Option String :=
  if text = "" then none else some text

/-- The auto-speak block of `ask` (App.jsx lines 53-58): anomaly first,
with "Warning. " prepended, else insight, else nothing; `none` means no
utterance is produced. -/
def autoSpoken (insight anomaly : Option String) : Option String :=
  if jsTruthy anomaly then speakModel ("Warning. " ++ anomaly.getD "")
  else if jsTruthy insight then speakModel (insight.getD "")
  else none

/-- The error object reaching the catch block: `err.response?.data?.detail`
collapses to a single optional string (`none` when any link is absent). -/
structure JsError where
  detail : Option String
deriving DecidableEq, Repr

/-- The reset performed by `ask` before the HTTP request is sent
(App.jsx lines 32-36): message, insight, anomaly, cols, rows cleared. -/
def resetState (_s : AppState) : AppState :=
  { message := "", insight := "", anomaly := "", cols := [], rows := [] }

/-- Resolution of the request: the success branch applies the response;
the catch branch sets only `message`, to the error detail when truthy,
else "Request failed" (App.jsx line 62). -/
def askResolve (s : AppState) (outcome : Except JsError ChatResponseM) : AppState :=
  match outcome with
  | .ok resp => applyResponse resp
  | .error e => { s with message := jsOrStr e.detail "Request failed" }

/-- App.jsx `ask` as a state transformer: a blank (whitespace-only)
question is a no-op; otherwise the state is reset first and the request
outcome is then resolved. -/
def ask (q : String) (s : AppState) (outcome : Except JsError ChatResponseM) : AppState :=
  if trimStr q = "" then s else askResolve (resetState s) outcome

/-! ## Seed data (src/unnamed/part_000)

The two tables and the six seeded rows of each, embedded verbatim from
the INSERT statements. -/

structure OrderRow where
  order_id : ℕ
  customer_id : ℕ
  product_id : ℕ
  order_date : String
  amount : ℚ
deriving DecidableEq, Repr

structure SummaryRow where
  id : ℕ
  order_id : ℕ
  quantity : ℕ
  discount : ℚ
  tax : ℚ
deriving DecidableEq, Repr

def ordersSeed : List OrderRow :=
  [ ⟨1, 101, 1001, "2025-06-15", 299.99⟩,
    ⟨2, 102, 1002, "2025-07-02", 149.50⟩,
    ⟨3, 103, 1001, "2025-08-10", 499.00⟩,
    ⟨4, 101, 1003, "2025-09-01", 79.99⟩,
    ⟨5, 104, 1002, "2025-10-11", 199.99⟩,
    ⟨6, 105, 1004, "2025-11-20", 349.75⟩ ]

def summarySeed : List SummaryRow :=
  [ ⟨1, 1, 1, 0, 18.0⟩,
    ⟨2, 2, 2, 10.0, 7.5⟩,
    ⟨3, 3, 1, 0, 28.0⟩,
    ⟨4, 4, 3, 5.0, 5.5⟩,
    ⟨5, 5, 1, 0, 15.0⟩,
    ⟨6, 6, 2, 20.0, 24.0⟩ ]

/-- The schema of the seeded database, from the CREATE TABLE statements:
table name → ordered column names. -/
def dbSchema : List (String × List String) :=
  [ ("orders", ["order_id", "customer_id", "product_id", "order_date", "amount"]),
    ("summary", ["id", "order_id", "quantity", "discount", "tax"]) ]

def ordersColumns : List String :=
  ["order_id", "customer_id", "product_id", "order_date", "amount"]

/-! ## Query model for Scenario A (tax contributions per customer)

The executor itself is the external SQLite store; the aggregation the
spec pins down is modelled over the embedded seed rows. -/

/-- Modelled from the spec: the join of `summary` to `orders` on
`order_id`, projected to (customer_id, tax) pairs.  The Query Executor
is not part of the source tree. -/
def joinedTax : List (ℕ × ℚ) :=
  summarySeed.filterMap (fun s =>
    (ordersSeed.find? (fun o => o.order_id = s.order_id)).map
      (fun o => (o.customer_id, s.tax)))

/-- Accumulate one (customer, tax) pair into per-customer running
totals, keeping first-appearance order of customers. -/
def addTax : List (ℕ × ℚ) → ℕ × ℚ → List (ℕ × ℚ)
  | [], p => [p]
  | (c, t) :: rest, p =>
      if c = p.1 then (c, t + p.2) :: rest else (c, t) :: addTax rest p

/-- Modelled from the spec: group the joined pairs by customer and sum
the tax of each group. -/
def taxTotals : List (ℕ × ℚ) :=
  joinedTax.foldl addTax []

/-- Insertion into a list kept in descending order of the second
component (the ORDER BY ... DESC of the modelled query). -/
def insertDescQ (x : ℕ × ℚ) : List (ℕ × ℚ) → List (ℕ × ℚ)
  | [] => [x]
  | y :: ys => if y.2 ≤ x.2 then x :: y :: ys else y :: insertDescQ x ys

def sortDescQ (l : List (ℕ × ℚ)) : List (ℕ × ℚ) :=
  l.foldr insertDescQ []

/-- Modelled from the spec: the full "customers with highest tax
contributions" query result — join on order_id, group by customer_id,
sum tax, order by the total descending. -/
def customerTaxQuery : List (ℕ × ℚ) :=
  sortDescQ taxTotals

/-! ## Insight Generator (spec section 4.4; not present in src/) -/

def listMean (l : List ℚ) : ℚ :=
  l.sum / (l.length : ℚ)

structure InsightReport where
  metricColumn : String
  baselineValue : ℚ
  currentValue : ℚ
  percentDelta : ℚ
  text : String
deriving DecidableEq, Repr

/-- Modelled from the spec: the Insight Generator over the measure
series in time order.  Fewer than 2 rows or a zero baseline produce no
report; `percentDelta = (current - baseline)/baseline * 100`; bands
|delta| < 5 → no report, 5-20 → "moderately", > 20 → "significantly",
direction from the sign. -/
def generateInsight (metric : String) (series : List ℚ) : Option InsightReport :=
  match series.dropLast, series.getLast? with
  | [], _ => none
  | _, none => none
  | prev@(_ :: _), some current =>
      let baseline := listMean prev
      if baseline = 0 then none
      else
        let delta := (current - baseline) / baseline * 100
        if |delta| < 5 then none
        else
          some ⟨metric, baseline, current, delta,
            (if 20 < |delta| then "significantly " else "moderately ")
              ++ (if 0 < delta then "higher" else "lower")⟩

/-- The Scenario B monthly revenue series: one row per seeded month,
revenue equal to that month's single order amount, in time order. -/
def monthlyRevenue : List (String × ℚ) :=
  ordersSeed.map (fun o => ((⟨o.order_date.data.take 7⟩ : String), o.amount))

def revenueSeries : List ℚ :=
  monthlyRevenue.map Prod.snd

/-! ## Anomaly Detector (spec section 4.5; not present in src/) -/

def listVariance (l : List ℚ) : ℚ :=
  (l.map (fun v => (v - listMean l) ^ 2)).sum / (l.length : ℚ)

structure AnomalyReport where
  flaggedRowIndices : List ℕ
  threshold : ℚ
  text : String
deriving DecidableEq, Repr

/-- Modelled from the spec: the Anomaly Detector over the measure
series.  Needs at least 3 rows; σ = 0 means no anomaly possible; a row
is flagged when |z| ≥ threshold, which over exact rationals is expressed
square-free as (v - μ)² ≥ threshold² · σ² (equivalent for a nonnegative
threshold); the report is absent when no row is flagged. -/
def detect (threshold : ℚ) (series : List ℚ) : Option AnomalyReport :=
  if series.length < 3 then none
  else
    let μ := listMean series
    let v := listVariance series
    if v = 0 then none
    else
      let flagged := (series.enum.filter
        (fun p => threshold ^ 2 * v ≤ (p.2 - μ) ^ 2)).map Prod.fst
      if flagged.isEmpty then none
      else
        some ⟨flagged, threshold,
          String.intercalate ", " (flagged.map (fun i =>
            "row " ++ toString i
              ++ (if listMean series < (series.getD i 0) then " spike" else " drop")))⟩

/-! ## SQL Validator and Corrector (spec sections 4.1, 4.2; not present
in src/) -/

inductive StripMode where
  | normal
  | dashSeen
  | slashSeen
  | lineComment
  | blockComment
  | starSeen
  | strLit
deriving DecidableEq, Repr

/-- Modelled from the spec: normalization of a candidate before keyword
scanning — SQL `--` and block comments and single-quoted string literals
are stripped, one character at a time (dashSeen/slashSeen/starSeen hold
a possible comment delimiter).  A block comment is removed without
leaving a separator, so comment-split keywords reassemble and are caught
by the scan; a string literal is replaced by a space. -/
def stripGo : StripMode → List Char → List Char
  | .normal, [] => []
  | .normal, c :: rest =>
      if c = '-' then stripGo .dashSeen rest
      else if c = '/' then stripGo .slashSeen rest
      else if c = quoteChar then ' ' :: stripGo .strLit rest
      else c :: stripGo .normal rest
  | .dashSeen, [] => ['-']
  | .dashSeen, c :: rest =>
      if c = '-' then stripGo .lineComment rest
      else '-' ::
        (if c = '/' then stripGo .slashSeen rest
         else if c = quoteChar then ' ' :: stripGo .strLit rest
         else c :: stripGo .normal rest)
  | .slashSeen, [] => ['/']
  | .slashSeen, c :: rest =>
      if c = '*' then stripGo .blockComment rest
      else '/' ::
        (if c = '-' then stripGo .dashSeen rest
         else if c = '/' then stripGo .slashSeen rest
         else if c = quoteChar then ' ' :: stripGo .strLit rest
         else c :: stripGo .normal rest)
  | .lineComment, [] => []
  | .lineComment, c :: rest =>
      if c = newlineChar then ' ' :: stripGo .normal rest
      else stripGo .lineComment rest
  | .blockComment, [] => []
  | .blockComment, c :: rest =>
      if c = '*' then stripGo .starSeen rest
      else stripGo .blockComment rest
  | .starSeen, [] => []
  | .starSeen, c :: rest =>
      if c = '/' then stripGo .normal rest
      else if c = '*' then stripGo .starSeen rest
      else stripGo .blockComment rest
  | .strLit, [] => []
  | .strLit, c :: rest =>
      if c = quoteChar then stripGo .normal rest
      else stripGo .strLit rest

def normalizeSql (s : String) : String :=
  ⟨stripGo .normal s.data⟩

def isIdentChar (c : Char) : Bool :=
  c.isAlphanum || c = '_'

/-- Identifier/keyword tokens of the normalized text: maximal runs of
alphanumeric-or-underscore characters. -/
def tokensGo : List Char → List Char → List String
  | [], acc => if acc.isEmpty then [] else [⟨acc.reverse⟩]
  | c :: rest, acc =>
      if isIdentChar c then tokensGo rest (c :: acc)
      else (if acc.isEmpty then [] else [(⟨acc.reverse⟩ : String)]) ++ tokensGo rest []

def tokensOf (s : String) : List String :=
  tokensGo s.data []

def blockedKeywords : List String :=
  ["INSERT", "UPDATE", "DELETE", "DROP", "ALTER", "TRUNCATE", "CREATE",
   "ATTACH", "PRAGMA"]

/-- A candidate contains a blocked keyword, case-insensitively, after
normalizing out comments and string literals. -/
def containsBlocked (cand : String) : Bool :=
  (tokensOf (normalizeSql cand)).any (fun t => blockedKeywords.contains (upperStr t))

inductive ViolationKind where
  | MultiStatement
  | UnsafeStatement
  | UnknownTable
  | UnknownColumn
  | AmbiguousCorrection
  | UncorrectableStatement
deriving DecidableEq, Repr

structure Violation where
  kind : ViolationKind
  token : String
deriving DecidableEq, Repr

inductive ValidationVerdict where
  | Accepted (stmt : String)
  | Fixable (stmt : String) (violations : List Violation)
  | Rejected (violations : List Violation)
deriving DecidableEq, Repr

/-- Levenshtein distance, dynamic-programming inner step: from the row
for the previous prefix of the token, the distances of the next prefix
against every prefix of `ys`.  `pPrev` is the diagonal entry, the head
of `pRest` the entry above, `cur` the entry to the left. -/
def levRowGo (x : Char) : List Char → List Nat → Nat → List Nat
  | [], _, _ => []
  | y :: ys, prev, cur =>
      match prev with
      | [] => []
      | pPrev :: pRest =>
          let next := min (cur + 1)
            (min (pRest.headD 0 + 1) (pPrev + (if x = y then 0 else 1)))
          next :: levRowGo x ys pRest next

/-- Modelled from the spec: string-edit distance (Levenshtein) between
the offending token and a column name, computed row by row. -/
def levenshtein (a b : String) : ℕ :=
  let ys := b.data
  let final := a.data.foldl
    (fun row x => (row.headD 0 + 1) :: levRowGo x ys row (row.headD 0 + 1))
    (List.range (ys.length + 1))
  final.getLastD 0

inductive CorrectionResult where
  | corrected (col : String)
  | ambiguous
  | unfixable
deriving DecidableEq, Repr

def distances (token : String) (cols : List String) : List (String × ℕ) :=
  cols.map (fun c => (c, levenshtein token c))

def minDist (token : String) (cols : List String) : Option ℕ :=
  ((distances token cols).map Prod.snd).min?

/-- Modelled from the spec: the Corrector's choice for one offending
token.  No candidate within 2 edits ⇒ unfixable (the spec's Scenario D
rejects `xyz_totally_unknown` as UnknownColumn/unfixable even though two
columns tie at its large minimum distance, so the distance limit is
checked before ambiguity); a tie at an in-limit minimum ⇒ ambiguous;
otherwise the unique minimum-distance column. -/
def correct (token : String) (cols : List String) : CorrectionResult :=
  match minDist token cols with
  | none => .unfixable
  | some m =>
      if 2 < m then .unfixable
      else
        match (distances token cols).filter (fun p => p.2 = m) with
        | [] => .unfixable
        | [p] => .corrected p.1
        | _ :: _ :: _ => .ambiguous

/-- Two or more columns attain the minimum edit distance from the token. -/
def tieAtMin (token : String) (cols : List String) : Bool :=
  match minDist token cols with
  | none => false
  | some m => 2 ≤ ((distances token cols).filter (fun p => p.2 = m)).length

inductive ColumnResolution where
  | known
  | fixable (replacement : String)
  | rejected (kind : ViolationKind)
deriving DecidableEq, Repr

/-- Modelled from the spec: resolution of one referenced column against
the referenced tables' columns — known, fixable with its unique
correction, or rejected (UnknownColumn when unfixable, otherwise
AmbiguousCorrection). -/
def resolveColumn (token : String) (cols : List String) : ColumnResolution :=
  if cols.contains token then .known
  else
    match correct token cols with
    | .corrected c => .fixable c
    | .ambiguous => .rejected .AmbiguousCorrection
    | .unfixable => .rejected .UnknownColumn

def sqlKeywords : List String :=
  ["SELECT", "FROM", "WHERE", "GROUP", "BY", "ORDER", "JOIN", "ON", "AS",
   "AND", "OR", "SUM", "COUNT", "AVG", "MIN", "MAX", "TOTAL", "DESC",
   "ASC", "LIMIT", "INNER", "LEFT", "RIGHT", "OUTER", "HAVING",
   "DISTINCT", "IN", "NOT", "NULL", "LIKE", "BETWEEN", "CASE", "WHEN",
   "THEN", "ELSE", "END"]

/-- Table names referenced by the token stream: the token following each
FROM or JOIN keyword. -/
def refTables : List String → List String
  | [] => []
  | t :: rest =>
      if upperStr t = "FROM" || upperStr t = "JOIN" then
        match rest with
        | t2 :: rest2 => t2 :: refTables rest2
        | [] => []
      else refTables rest

/-- Drop each AS keyword together with the alias token that follows it. -/
def dropAliases : List String → List String
  | [] => []
  | t :: rest =>
      if upperStr t = "AS" then
        match rest with
        | _ :: rest2 => dropAliases rest2
        | [] => []
      else t :: dropAliases rest

def isNumericToken (t : String) : Bool :=
  t.data.all Char.isDigit && !t.isEmpty

/-- Modelled from the spec: the tolerant identifier scan — every token
that is not a SQL keyword, not a numeric literal and not a referenced
table name is treated as a column reference. -/
def columnRefs (toks : List String) : List String :=
  let tabs := refTables toks
  (dropAliases toks).filter (fun t =>
    !(sqlKeywords.contains (upperStr t)) && !(isNumericToken t) && !(tabs.contains t))

/-- The UnsafeStatement violations of a candidate: one per blocked
keyword token of the normalized text. -/
def unsafeViolations (cand : String) : List Violation :=
  (tokensOf (normalizeSql cand)).filterMap (fun t =>
    if blockedKeywords.contains (upperStr t) then some ⟨.UnsafeStatement, t⟩ else none)

/-- Modelled from the spec: a statement terminator followed by anything
that is not whitespace marks a multi-statement candidate. -/
def multiStatement : List Char → Bool
  | [] => false
  | c :: rest =>
      (c = ';' && !(rest.all Char.isWhitespace)) || multiStatement rest

def multiViolations (cand : String) : List Violation :=
  if multiStatement (normalizeSql cand).data then [⟨.MultiStatement, ";"⟩] else []

/-- Violations of the leading-keyword whitelist: the first token of the
normalized candidate must be SELECT (a blocked leading keyword is
already reported by the unsafe scan). -/
def leadViolations (cand : String) : List Violation :=
  match (tokensOf (normalizeSql cand)).head? with
  | none => [⟨.UnsafeStatement, ""⟩]
  | some t =>
      if upperStr t = "SELECT" || blockedKeywords.contains (upperStr t) then []
      else [⟨.UnsafeStatement, t⟩]

def unknownTableViolations (cand : String) (schema : List (String × List String)) :
    List Violation :=
  ((refTables (tokensOf (normalizeSql cand))).filter
    (fun t => !(schema.any (fun e => e.1 = t)))).map (fun t => ⟨.UnknownTable, t⟩)

/-- All violations that make a candidate terminally rejected before the
column-resolution step. -/
def fatalViolations (cand : String) (schema : List (String × List String)) :
    List Violation :=
  unsafeViolations cand ++ multiViolations cand ++ leadViolations cand
    ++ unknownTableViolations cand schema

/-- The columns available to the candidate: the union of the columns of
its referenced tables. -/
def availableColumns (cand : String) (schema : List (String × List String)) :
    List String :=
  schema.foldr (fun e acc =>
    if (refTables (tokensOf (normalizeSql cand))).contains e.1 then e.2 ++ acc
    else acc) []

/-- Modelled from the spec: the column-resolution step of the Validator.
Every unresolved reference is corrected when a unique in-limit candidate
exists (verdict Fixable), and otherwise rejects the candidate with
UnknownColumn or AmbiguousCorrection. -/
def columnStep (cand : String) (schema : List (String × List String)) :
    ValidationVerdict :=
  let cols := availableColumns cand schema
  let unknown := (columnRefs (tokensOf (normalizeSql cand))).filter
    (fun t => !(cols.contains t))
  let hard := unknown.filterMap (fun t =>
    match resolveColumn t cols with
    | .rejected k => some (⟨k, t⟩ : Violation)
    | _ => none)
  match hard with
  | v :: vs => .Rejected (v :: vs)
  | [] =>
      match unknown with
      | [] => .Accepted cand
      | u :: us => .Fixable cand ((u :: us).map (fun t => ⟨.UnknownColumn, t⟩))

/-- Modelled from the spec: `validate(candidateText, schema)`.  The
Validator is not part of the source tree; following spec section 4.1 it
normalizes the candidate, collects the fatal violations (unsafe
keywords, multi-statement, non-SELECT leading keyword, unknown tables)
and rejects on any of them, and otherwise resolves the referenced
columns. -/
def validate (cand : String) (schema : List (String × List String)) :
    ValidationVerdict :=
  match fatalViolations cand schema with
  | [] => columnStep cand schema
  | v :: vs => .Rejected (v :: vs)

/-- The seeded amount series in time order, the measure column of
Scenarios B and C. -/
def amountSeries : List ℚ :=
  ordersSeed.map OrderRow.amount

/-! ## Theorems -/

/-- C3: over the seeded orders and summary tables, the
highest-tax-contribution query (join on order_id, group by customer_id,
sum tax, order by total descending) yields exactly
103→28.0, 105→24.0, 101→23.5, 104→15.0, 102→7.5, and its first row is
(customer_id 103, total_tax 28.0). -/
theorem tax_query_scenario_a :
    customerTaxQuery = [(103, 28), (105, 24), (101, 23.5), (104, 15), (102, 7.5)]
    ∧ customerTaxQuery.head? = some (103, 28) := by
  have h : customerTaxQuery = [(103, 28), (105, 24), (101, 23.5), (104, 15), (102, 7.5)] := by
    norm_num [customerTaxQuery, sortDescQ, taxTotals, joinedTax, summarySeed, ordersSeed,
      addTax, insertDescQ, List.filterMap, List.find?]
  exact ⟨h, by rw [h]; rfl⟩

/-- C4: on the seeded six-month revenue series the Insight Generator
reports currentValue = 349.75, baselineValue = 245.694 (the mean of the
preceding five amounts, ≈ 245.69), a percentDelta ≈ +42.3% that exceeds
the 20% band, and a "significantly higher" insight text. -/
theorem insight_scenario_b :
    generateInsight "revenue" revenueSeries =
      some ⟨"revenue", 122847/500, 349.75, 5202800/122847, "significantly higher"⟩
    ∧ |(122847 : ℚ)/500 - 245.69| < 1/100
    ∧ |(5202800 : ℚ)/122847 - 42.3| < 1/10
    ∧ (20 : ℚ) < 5202800/122847 := by
  refine ⟨?_, ?_, ?_, by norm_num⟩
  · norm_num [generateInsight, revenueSeries, monthlyRevenue, ordersSeed, listMean]
    rw [abs_of_pos (show (0 : ℚ) < 5202800/122847 by norm_num)]
    norm_num
    rfl
  · rw [abs_sub_lt_iff]
    norm_num
  · rw [abs_sub_lt_iff]
    norm_num

/-- C5: on the seeded amount series the detector's mean is ≈ 263.04, its
population variance lies between 138.3² and 138.5² (σ ≈ 138.4), the
largest deviation (the 499.00 row) has a z-score between 1.70 and 1.72
(≈ 1.71), every row's squared deviation is below (2σ)², and `detect` at
the default threshold 2.0 returns no report. -/
theorem anomaly_scenario_c :
    detect 2 amountSeries = none
    ∧ |listMean amountSeries - 263.04| < 1/100
    ∧ (138.3 : ℚ)^2 < listVariance amountSeries
    ∧ listVariance amountSeries < (138.5 : ℚ)^2
    ∧ (1.70 : ℚ)^2 * listVariance amountSeries < (499 - listMean amountSeries)^2
    ∧ (499 - listMean amountSeries)^2 < (1.72 : ℚ)^2 * listVariance amountSeries
    ∧ ∀ v ∈ amountSeries,
        (v - listMean amountSeries)^2 < (2 : ℚ)^2 * listVariance amountSeries := by
  refine ⟨?_, ?_, ?_, ?_, ?_, ?_, ?_⟩
  · norm_num [detect, amountSeries, ordersSeed, listMean, listVariance, List.enum]
  · rw [abs_sub_lt_iff]
    norm_num [listMean, amountSeries, ordersSeed]
  · norm_num [listVariance, listMean, amountSeries, ordersSeed]
  · norm_num [listVariance, listMean, amountSeries, ordersSeed]
  · norm_num [listVariance, listMean, amountSeries, ordersSeed]
  · norm_num [listVariance, listMean, amountSeries, ordersSeed]
  · intro v hv
    simp only [amountSeries, ordersSeed, List.map_cons, List.map_nil, List.mem_cons,
      List.not_mem_nil, or_false] at hv
    rcases hv with h | h | h | h | h | h <;> subst h <;>
      norm_num [listVariance, listMean, amountSeries, ordersSeed]

set_option maxRecDepth 8000 in
/-- C6: against the orders schema, a candidate referencing
`rroducts_id` is classified Fixable with unique minimum-distance
correction `product_id` at distance 2, while `xyz_totally_unknown`
(distance > 2 from every orders column) is Rejected as UnknownColumn,
unfixable. -/
theorem column_correction_scenario_d :
    validate "SELECT rroducts_id FROM orders" dbSchema =
      .Fixable "SELECT rroducts_id FROM orders" [⟨.UnknownColumn, "rroducts_id"⟩]
    ∧ correct "rroducts_id" ordersColumns = .corrected "product_id"
    ∧ levenshtein "rroducts_id" "product_id" = 2
    ∧ validate "SELECT xyz_totally_unknown FROM orders" dbSchema =
      .Rejected [⟨.UnknownColumn, "xyz_totally_unknown"⟩]
    ∧ correct "xyz_totally_unknown" ordersColumns = .unfixable
    ∧ (ordersColumns.all fun c => decide (2 < levenshtein "xyz_totally_unknown" c)) = true := by
  refine ⟨by decide, by decide, by decide, by decide, by decide, by decide⟩

/-- Witness for C5: the largest row, 499, is in the series and its
squared deviation is below the squared threshold. -/
theorem anomaly_scenario_c_witness :
    (499 : ℚ) ∈ amountSeries
    ∧ ((499 : ℚ) - listMean amountSeries)^2 < (2 : ℚ)^2 * listVariance amountSeries :=
  ⟨by norm_num [amountSeries, ordersSeed],
   anomaly_scenario_c.2.2.2.2.2.2 499 (by norm_num [amountSeries, ordersSeed])⟩

/-- C1: any candidate containing a blocked keyword, case-insensitively
and after normalizing out SQL comments and string literals, is Rejected
with an UnsafeStatement violation, and is never Accepted or Fixable. -/
theorem validator_blocks_unsafe_keywords (cand : String) (schema : List (String × List String))
    (h : containsBlocked cand = true) :
    (∃ vs, validate cand schema = .Rejected vs ∧ ∃ v ∈ vs, v.kind = .UnsafeStatement)
    ∧ (∀ s, validate cand schema ≠ .Accepted s)
    ∧ (∀ s vs, validate cand schema ≠ .Fixable s vs) := by
  obtain ⟨t, ht, hblk⟩ := List.any_eq_true.mp h
  have hmem : (⟨.UnsafeStatement, t⟩ : Violation) ∈ unsafeViolations cand := by
    rw [unsafeViolations, List.mem_filterMap]
    exact ⟨t, ht, by rw [if_pos hblk]⟩
  have hfat : (⟨.UnsafeStatement, t⟩ : Violation) ∈ fatalViolations cand schema := by
    rw [fatalViolations]
    exact List.mem_append_left _ (List.mem_append_left _ (List.mem_append_left _ hmem))
  rcases hf : fatalViolations cand schema with _ | ⟨v, vs⟩
  · rw [hf] at hfat
    exact absurd hfat (List.not_mem_nil _)
  · have hval : validate cand schema = .Rejected (v :: vs) := by
      rw [validate, hf]
    rw [hf] at hfat
    refine ⟨⟨v :: vs, hval, ⟨.UnsafeStatement, t⟩, hfat, rfl⟩, ?_, ?_⟩
    · intro s hcon
      rw [hval] at hcon
      exact ValidationVerdict.noConfusion hcon
    · intro s vs2 hcon
      rw [hval] at hcon
      exact ValidationVerdict.noConfusion hcon

set_option maxRecDepth 8000 in
/-- Witness for C1: a mixed-case, comment-obfuscated DROP inside a
SELECT is caught and Rejected with an UnsafeStatement violation. -/
theorem validator_blocks_unsafe_keywords_witness :
    containsBlocked "SELECT a FROM orders; dR/**/oP TABLE orders" = true
    ∧ (∃ vs, validate "SELECT a FROM orders; dR/**/oP TABLE orders" dbSchema = .Rejected vs
        ∧ ∃ v ∈ vs, v.kind = .UnsafeStatement) :=
  ⟨by decide,
   (validator_blocks_unsafe_keywords "SELECT a FROM orders; dR/**/oP TABLE orders" dbSchema
     (by decide)).1⟩

/-- Counterexample for C2 as stated: two responses that differ only in
whether insight/anomaly are absent or empty strings produce identical
frontend state, so the caller cannot distinguish them; the absent
insight is collapsed to the empty string. -/
theorem insight_presence_collapsed :
    applyResponse ⟨some "ok", some ⟨["c"], []⟩, none, none⟩
      = applyResponse ⟨some "ok", some ⟨["c"], []⟩, some "", some ""⟩
    ∧ (none : Option String) ≠ some ""
    ∧ (applyResponse ⟨some "ok", some ⟨["c"], []⟩, none, none⟩).insight = "" := by
  refine ⟨by decide, by decide, by decide⟩

/-- C2 amended: the presentation layer collapses an absent insight or
anomaly field into the empty string — the stored state is the field's
value with absence mapped to "", so "no anomaly computed" and "computed
but empty" are indistinguishable downstream. -/
theorem insight_anomaly_collapse (resp : ChatResponseM) :
    (applyResponse resp).insight = resp.insight.getD ""
    ∧ (applyResponse resp).anomaly = resp.anomaly.getD "" := by
  obtain ⟨msg, dat, ins, anom⟩ := resp
  constructor
  · rcases ins with _ | s
    · rfl
    · show jsOrStr (some s) "" = s
      rw [jsOrStr]
      split <;> simp_all
  · rcases anom with _ | s
    · rfl
    · show jsOrStr (some s) "" = s
      rw [jsOrStr]
      split <;> simp_all

set_option maxRecDepth 8000 in
/-- Counterexample for C7 as stated: for the token
`xyz_totally_unknown` against the orders columns, two columns
(customer_id and amount) tie at the minimum edit distance 16, yet the
result is unfixable (UnknownColumn), not AmbiguousCorrection — the
distance limit is checked before ambiguity, as the spec's own Scenario D
requires. -/
theorem tie_above_limit_not_ambiguous :
    tieAtMin "xyz_totally_unknown" ordersColumns = true
    ∧ levenshtein "xyz_totally_unknown" "customer_id" = 16
    ∧ levenshtein "xyz_totally_unknown" "amount" = 16
    ∧ minDist "xyz_totally_unknown" ordersColumns = some 16
    ∧ correct "xyz_totally_unknown" ordersColumns = .unfixable
    ∧ CorrectionResult.unfixable ≠ CorrectionResult.ambiguous := by
  refine ⟨by decide, by decide, by decide, by decide, by decide, by decide⟩

/-- C7 amended: the Corrector is deterministic (two runs on the same
token and schema give the same result), and whenever two columns tie at
the minimum edit distance and that minimum is within the edit-distance
limit 2, the result is ambiguous (Rejected, AmbiguousCorrection) rather
than any correction. -/
theorem corrector_determinism_and_tie (token : String) (cols : List String) :
    (∀ r₁ r₂ : CorrectionResult,
        correct token cols = r₁ → correct token cols = r₂ → r₁ = r₂)
    ∧ (∀ m : ℕ, minDist token cols = some m → m ≤ 2 →
        2 ≤ ((distances token cols).filter (fun p => p.2 = m)).length →
        correct token cols = .ambiguous) := by
  constructor
  · intro r₁ r₂ h₁ h₂
    rw [← h₁, ← h₂]
  · intro m hm hle hlen
    have h2 : ¬ 2 < m := by omega
    simp only [correct, hm]
    rw [if_neg h2]
    rcases hfl : (distances token cols).filter (fun p => p.2 = m) with _ | ⟨a, _ | ⟨b, t⟩⟩
    · rw [hfl] at hlen
      simp at hlen
    · rw [hfl] at hlen
      simp at hlen
    · simp only [hfl]

/-- Witness for C7: a token equidistant (distance 1) from two columns is
rejected as ambiguous. -/
theorem corrector_tie_witness :
    correct "aa" ["ab", "ba"] = CorrectionResult.ambiguous :=
  (corrector_determinism_and_tie "aa" ["ab", "ba"]).2 1 (by decide) (by decide) (by decide)

/-- C8: the auto-speak block speaks "Warning. " prepended to a truthy
anomaly (and then never the insight); speaks the insight only when the
anomaly is absent or empty and the insight is non-empty; and speaks
nothing when both are absent or empty. -/
theorem speech_priority (insight anomaly : Option String) :
    (∀ a, anomaly = some a → a ≠ "" → autoSpoken insight anomaly = some ("Warning. " ++ a))
    ∧ ((anomaly = none ∨ anomaly = some "") →
        ∀ i, insight = some i → i ≠ "" → autoSpoken insight anomaly = some i)
    ∧ ((anomaly = none ∨ anomaly = some "") → (insight = none ∨ insight = some "") →
        autoSpoken insight anomaly = none) := by
  refine ⟨?_, ?_, ?_⟩
  · rintro a rfl ha
    have htr : jsTruthy (some a) = true := by simp [jsTruthy, ha]
    have hne : ("Warning. " ++ a) ≠ "" := by
      intro hEq
      have hlen := congrArg String.length hEq
      rw [String.length_append] at hlen
      have h9 : ("Warning. ").length = 9 := rfl
      have h0 : ("" : String).length = 0 := rfl
      omega
    rw [autoSpoken, if_pos htr, speakModel, Option.getD_some, if_neg hne]
  · rintro han i rfl hi
    have hfa : jsTruthy anomaly = false := by
      rcases han with rfl | rfl <;> simp [jsTruthy]
    have htr : jsTruthy (some i) = true := by simp [jsTruthy, hi]
    rw [autoSpoken, if_neg (by simp [hfa]), if_pos htr, speakModel, Option.getD_some,
      if_neg hi]
  · rintro han hin
    have hfa : jsTruthy anomaly = false := by
      rcases han with rfl | rfl <;> simp [jsTruthy]
    have hfi : jsTruthy insight = false := by
      rcases hin with rfl | rfl <;> simp [jsTruthy]
    rw [autoSpoken, if_neg (by simp [hfa]), if_neg (by simp [hfi])]

/-- Witness for C8: with both fields present and non-empty, exactly the
anomaly is spoken, with "Warning. " prepended. -/
theorem speech_priority_witness :
    autoSpoken (some "All good") (some "Spike") = some "Warning. Spike" :=
  (speech_priority (some "All good") (some "Spike")).1 "Spike" rfl (by decide)

/-- `find?` finds something exactly when some element satisfies the
predicate. -/
theorem find?_isSome_eq_any {α : Type} (p : α → Bool) (l : List α) :
    (l.find? p).isSome = l.any p := by
  cases h : l.find? p with
  | some a =>
      exact (List.any_eq_true.mpr
        ⟨a, List.mem_of_find?_eq_some h, List.find?_some h⟩).symm
  | none =>
      simp only [Option.isSome_none]
      symm
      rw [← Bool.not_eq_true, List.any_eq_true]
      rintro ⟨x, hx, hpx⟩
      exact absurd hpx (by simpa using List.find?_eq_none.mp h x hx)

/-- `any` of a pointwise disjunction is the disjunction of the `any`s. -/
theorem any_orB {α : Type} (l : List α) (p q : α → Bool) :
    l.any (fun a => p a || q a) = (l.any p || l.any q) := by
  induction l with
  | nil => rfl
  | cons a t ih =>
      simp only [List.any_cons, ih, Bool.or_assoc, Bool.or_left_comm]

/-- The App.jsx time column exists exactly when some column is named
month or order_date, case-insensitively. -/
theorem timeColumn_isSome (cols : List String) :
    (timeColumn cols).isSome
      = cols.any (fun c => lowerStr c = "month" || lowerStr c = "order_date") := by
  rw [any_orB, ← find?_isSome_eq_any, ← find?_isSome_eq_any, timeColumn]
  cases h1 : cols.find? (fun c => lowerStr c = "month") with
  | some c => simp [h1]
  | none => simp [h1]

/-- The priority chain hits exactly when one of the five priority
columns is present. -/
theorem priorityNumeric_isSome (cols : List String) :
    (priorityNumeric cols).isSome
      = (cols.contains "tax" || cols.contains "discount" || cols.contains "quantity"
          || cols.contains "revenue" || cols.contains "amount") := by
  rw [priorityNumeric]
  repeat' split <;> simp_all

/-- A time column returned by App.jsx is never the empty string: its
lowercase name is month or order_date. -/
theorem timeColumn_ne_empty (cols : List String) (c : String)
    (h : timeColumn cols = some c) : c ≠ "" := by
  intro hc
  subst hc
  rw [timeColumn] at h
  cases h1 : cols.find? (fun x => lowerStr x = "month") with
  | some c0 =>
      simp only [h1, Option.some.injEq] at h
      subst h
      have hp := List.find?_some h1
      exact absurd (by simpa using hp) (by decide)
  | none =>
      simp only [h1] at h
      have hp := List.find?_some h
      exact absurd (by simpa using hp) (by decide)

/-- A column returned by the priority chain is one of the five literal
names, never the empty string. -/
theorem priorityNumeric_ne_empty (cols : List String) (c : String)
    (h : priorityNumeric cols = some c) : c ≠ "" := by
  intro hc
  subst hc
  rw [priorityNumeric] at h
  repeat' split at h
  all_goals first
  | exact absurd (Option.some.inj h) (by decide)
  | exact Option.noConfusion h

/-- The time column is truthy exactly when it exists: App.jsx never
selects an empty-string time column. -/
theorem jsTruthy_timeColumn (cols : List String) :
    jsTruthy (timeColumn cols) = (timeColumn cols).isSome := by
  cases ht : timeColumn cols with
  | none => rfl
  | some t =>
      have := timeColumn_ne_empty cols t ht
      simp [jsTruthy, this]

/-- Counterexample for C9 as stated: with columns month and tax but an
empty row list, the claim's two conditions hold (month is present, tax
is a priority numeric column) yet no chart is rendered. -/
theorem chart_condition_counterexample :
    chartData ["month", "tax"] ([] : List Row) = none
    ∧ specChartCondition ["month", "tax"] ([] : List Row) = true := by
  refine ⟨by decide, by decide⟩

/-- C9 amended: a line chart is rendered exactly when — a
case-insensitive month/order_date column exists; the selected numeric
column (priority chain, else the first non-time column whose first-row
value parses as a number) exists and has a non-empty name; and the row
list is non-empty. -/
theorem chart_iff_time_and_numeric (cols : List String) (rows : List Row) :
    (chartData cols rows).isSome = (specChartCondition cols rows && !rows.isEmpty) := by
  have hsplit : (chartData cols rows).isSome
      = (jsTruthy (timeColumn cols) && jsTruthy (numericColumn cols rows)) := by
    rw [chartData]
    cases ht : timeColumn cols with
    | none => simp [jsTruthy]
    | some t =>
        cases hn : numericColumn cols rows with
        | none => simp [jsTruthy]
        | some n =>
            by_cases hte : t = "" <;> by_cases hne : n = "" <;>
              simp [jsTruthy, hte, hne]
  rw [hsplit, jsTruthy_timeColumn, specChartCondition.eq_def, timeColumn_isSome]
  cases rows with
  | nil =>
      cases htc : cols.any (fun c => lowerStr c = "month" || lowerStr c = "order_date") <;>
        simp [numericColumn, jsTruthy]
  | cons r0 rest =>
      simp only [List.isEmpty_cons, Bool.not_false, Bool.and_true]
      have hnum : jsTruthy (numericColumn cols (r0 :: rest))
          = (cols.contains "tax" || cols.contains "discount" || cols.contains "quantity"
              || cols.contains "revenue" || cols.contains "amount"
              || (match cols.find? (fun c =>
                      (some c != timeColumn cols) && (jsToNumber (getCell r0 c)).isSome) with
                  | some c => c != ""
                  | none => false)) := by
        rw [numericColumn]
        cases hc : cols.isEmpty
        · simp only [Bool.false_eq_true, if_false]
          cases hp : priorityNumeric cols with
          | some c =>
              have hs := priorityNumeric_isSome cols
              rw [hp] at hs
              simp only [Option.isSome_some] at hs
              have hcne : c ≠ "" := priorityNumeric_ne_empty cols c hp
              rw [← hs]
              simp [jsTruthy, hcne]
          | none =>
              have hs := priorityNumeric_isSome cols
              rw [hp] at hs
              simp only [Option.isSome_none] at hs
              rw [← hs]
              simp only [Bool.false_or]
              cases hf : cols.find? (fun c =>
                  (some c != timeColumn cols) && (jsToNumber (getCell r0 c)).isSome) with
              | some c => simp [jsTruthy]
              | none => simp [jsTruthy]
        · have : cols = [] := List.isEmpty_iff.mp hc
          subst this
          simp [jsTruthy]
      rw [hnum]

/-- Counterexample for C10 as stated: when the server reports an empty
error detail (a value, not an absent field), the message becomes
"Request failed" instead of the server's detail, because both absent
and empty details are falsy in the catch branch. -/
theorem empty_detail_counterexample :
    (ask "q" ⟨"old", "oi", "oa", ["c"], []⟩ (Except.error ⟨some ""⟩)).message
      = "Request failed"
    ∧ "Request failed" ≠ "" := by
  refine ⟨by decide, by decide⟩

/-- C10 amended: a blank question is a no-op on the state; a non-blank
question first resets message, insight, anomaly, cols and rows before
resolving the request, and on failure only the message is set — to the
error detail when it is a non-empty string, else to "Request failed" —
so cols, rows, insight and anomaly stay empty. -/
theorem ask_state_machine (q : String) (s : AppState) :
    (trimStr q = "" → ∀ outcome, ask q s outcome = s)
    ∧ (trimStr q ≠ "" →
        (∀ outcome, ask q s outcome = askResolve (resetState s) outcome)
        ∧ resetState s = ⟨"", "", "", [], []⟩
        ∧ ∀ e : JsError,
            (ask q s (.error e)).cols = []
            ∧ (ask q s (.error e)).rows = []
            ∧ (ask q s (.error e)).insight = ""
            ∧ (ask q s (.error e)).anomaly = ""
            ∧ (∀ d, e.detail = some d → d ≠ "" → (ask q s (.error e)).message = d)
            ∧ ((e.detail = none ∨ e.detail = some "") →
                (ask q s (.error e)).message = "Request failed")) := by
  constructor
  · intro hq outcome
    rw [ask, if_pos hq]
  · intro hq
    have hask : ∀ outcome, ask q s outcome = askResolve (resetState s) outcome := by
      intro outcome
      rw [ask, if_neg hq]
    refine ⟨hask, rfl, ?_⟩
    intro e
    obtain ⟨d⟩ := e
    rw [hask]
    refine ⟨rfl, rfl, rfl, rfl, ?_, ?_⟩
    · rintro d0 rfl hd0
      show jsOrStr (some d0) "Request failed" = d0
      rw [jsOrStr]
      split <;> simp_all
    · rintro (rfl | rfl) <;> rfl

/-- Witness for C10: a failed request with no detail leaves empty data
and the fallback message. -/
theorem ask_state_machine_witness :
    (ask "hi" ⟨"m0", "i0", "a0", ["c0"], []⟩ (Except.error ⟨none⟩)).message = "Request failed"
    ∧ (ask "hi" ⟨"m0", "i0", "a0", ["c0"], []⟩ (Except.error ⟨none⟩)).cols = [] :=
  ⟨(((ask_state_machine "hi" ⟨"m0", "i0", "a0", ["c0"], []⟩).2 (by decide)).2.2
      ⟨none⟩).2.2.2.2.2 (Or.inl rfl),
   (((ask_state_machine "hi" ⟨"m0", "i0", "a0", ["c0"], []⟩).2 (by decide)).2.2 ⟨none⟩).1⟩

end TalkData
